import Mathlib

/-
Verification of the capture-and-paint orchestrator in `src/src/index.ts`
(the html2canvas fork's entry module).  Numeric quantities (scroll sizes,
segment heights, canvas dimensions, device scale) are modelled as integers;
colors are modelled as RGBA values packed into a natural number with the
alpha channel in the low byte, matching the `0xffffffff` opaque-white
literal used by the source.
-/

set_option linter.unusedVariables false

namespace Html2Canvas

/-- Modelled from the spec: `COLORS.TRANSPARENT` from `css/types/color`
(that module is not under `src/`).  The spec describes colors as "RGBA with
an explicit transparent sentinel"; the sentinel is the all-zero color. -/
def TRANSPARENT : ℕ := 0

/-- Modelled from the spec: `isTransparent` from `css/types/color` (not under
`src/`): a color is transparent when its alpha byte (the low byte of the
packed RGBA value, as witnessed by the source's `0xffffffff` opaque white)
is zero. -/
def isTransparent (c : ℕ) : Bool := c % 256 == 0

/-- Opaque white, the literal `0xffffffff` of `parseBackgroundColor`. -/
def WHITE : ℕ := 0xffffffff

/-- Computed `backgroundColor` strings of `ownerDocument.documentElement`
and `ownerDocument.body` as read by `parseBackgroundColor`
(src/src/index.ts lines 265-289); `none` when the node is absent. -/
structure DomEnv where
  documentElementBg : Option String
  bodyBg : Option String

/-- Shallow embedding of `parseBackgroundColor` (src/src/index.ts lines
265-289).  `parse` stands for `parseColor` from `css/types/color` (outside
`src/`) and is passed abstractly.  `backgroundColorOverride` models the
TypeScript `string | null | undefined` argument: `none` is `undefined`
(argument unset), `some none` is `null`, `some (some s)` is the string `s`.
`isDocumentElement` models `element === ownerDocument.documentElement`. -/
def parseBackgroundColor (parse : String → ℕ) (env : DomEnv)
    (isDocumentElement : Bool) (backgroundColorOverride : Option (Option String)) : ℕ :=
  let documentBackgroundColor : ℕ :=
    match env.documentElementBg with
    | some s => parse s
    | none => TRANSPARENT
  let bodyBackgroundColor : ℕ :=
    match env.bodyBg with
    | some s => parse s
    | none => TRANSPARENT
  let defaultBackgroundColor : ℕ :=
    match backgroundColorOverride with
    | some (some s) => parse s
    | some none => TRANSPARENT
    | none => WHITE
  if isDocumentElement then
    if isTransparent documentBackgroundColor then
      if isTransparent bodyBackgroundColor then defaultBackgroundColor
      else bodyBackgroundColor
    else documentBackgroundColor
  else defaultBackgroundColor

/-- Sample color parser used for the concrete scenarios of the spec
(transparent document, red body, blue document).  Alpha is the low byte. -/
def sampleParse : String → ℕ
  | "red" => 0xff0000ff
  | "blue" => 0x0000ffff
  | "transparent" => 0
  | _ => 0

/-- Software-painter path of `render` (src/src/index.ts lines 224 and
249-253): the pair of the resolved page background color and the root paint
node's background color after the double-paint suppression
(`if (backgroundColor === root.styles.backgroundColor) root.styles.backgroundColor = COLORS.TRANSPARENT`). -/
def renderBackgroundPair (parse : String → ℕ) (env : DomEnv) (isDocumentElement : Bool)
    (backgroundColorOverride : Option (Option String)) (rootStylesBackgroundColor : ℕ) :
    ℕ × ℕ :=
  let backgroundColor := parseBackgroundColor parse env isDocumentElement backgroundColorOverride
  (backgroundColor,
    if backgroundColor = rootStylesBackgroundColor then TRANSPARENT
    else rootStylesBackgroundColor)

/-- Arithmetic core of the sweep loop of `html2canvasSegmented`
(src/src/index.ts lines 74-100).  From `curTop` and with the given fuel,
return the emitted `(curTop, height)` pairs, the final value of `curTop`,
and whether the loop reached its exit condition `curTop >= totalHeight`
within the fuel (the source loop has no fuel; the flag lets nontermination
be expressed). -/
def sweepRun (totalHeight segmentHeight : ℤ) : ℕ → ℤ → List (ℤ × ℤ) × ℤ × Bool
  | 0, curTop => ([], curTop, decide (totalHeight ≤ curTop))
  | n + 1, curTop =>
    if curTop < totalHeight then
      let height := min (totalHeight - curTop) segmentHeight
      let r := sweepRun totalHeight segmentHeight n (curTop + height)
      ((curTop, height) :: r.1, r.2)
    else ([], curTop, true)

/-- The sweep loop terminates: some fuel reaches the exit condition. -/
def sweepTerminates (totalHeight segmentHeight : ℤ) : Prop :=
  ∃ n, (sweepRun totalHeight segmentHeight n 0).2.2 = true

/-- The first emitted segment starts at `curTop = 0`. -/
def segStartsAtZero (l : List (ℤ × ℤ)) : Prop :=
  ∃ p, l.head? = some p ∧ p.1 = 0

/-- Consecutive segments chain: each next `curTop` is the previous
`curTop + height`. -/
def segChained (l : List (ℤ × ℤ)) : Prop :=
  ∀ i (hi : i + 1 < l.length), l[i + 1].1 = l[i].1 + l[i].2

/-- Every emitted height is `min segmentHeight (totalHeight - curTop)`. -/
def segHeights (totalHeight segmentHeight : ℤ) (l : List (ℤ × ℤ)) : Prop :=
  ∀ i (hi : i < l.length), l[i].2 = min segmentHeight (totalHeight - l[i].1)

/-- The last segment ends exactly at `totalHeight`. -/
def segLastCovers (totalHeight : ℤ) (l : List (ℤ × ℤ)) : Prop :=
  ∀ p : ℤ × ℤ, l.getLast? = some p → p.1 + p.2 = totalHeight

/-- Inductive characterization of a correctly emitted segment list starting
at `t`: each pair records the current top and the clamped height computed by
line 77 of the source, and the list is empty exactly when the loop guard
fails. -/
def segsSpec (totalHeight segmentHeight : ℤ) : ℤ → List (ℤ × ℤ) → Prop
  | t, [] => totalHeight ≤ t
  | t, (c, h) :: rest =>
    c = t ∧ h = min (totalHeight - t) segmentHeight ∧ t < totalHeight ∧
      segsSpec totalHeight segmentHeight (t + h) rest

/-- `ownerDocument` of the target element, as far as `prepare` inspects it:
whether `ownerDocument.defaultView` is present. -/
structure DocModel where
  defaultView : Bool

/-- The target element, as far as the precondition checks of `prepare`
(src/src/index.ts lines 132-149) inspect it: whether
`typeof element === 'object'` and whether it has an `ownerDocument`.
A `null`/`undefined` element is modelled as `none` at the call sites. -/
structure ElemModel where
  isObject : Bool
  ownerDocument : Option DocModel

/-- Precondition/rejection skeleton of `prepare` (src/src/index.ts lines
132-203): the sequence of guard checks in source order, with
`clonedReferenceElementFound` modelling
`documentCloner.clonedReferenceElement` being non-null. -/
def prepare (element : Option ElemModel) (clonedReferenceElementFound : Bool) :
    Except String Unit :=
  match element with
  | none => Except.error "Invalid element provided as first argument"
  | some e =>
    if e.isObject = false then Except.error "Invalid element provided as first argument"
    else
      match e.ownerDocument with
      | none => Except.error "Element is not attached to a Document"
      | some d =>
        if d.defaultView = false then Except.error "Document is not attached to a Window"
        else if clonedReferenceElementFound = false then
          Except.error "Unable to find element in cloned iframe"
        else Except.ok ()

/-- Precondition/rejection skeleton of `html2canvasSegmented`
(src/src/index.ts lines 57-68): the `ele == null` guard, then `prepare`,
then the `canvas.getContext('2d')` null check (`ctxAvailable`). -/
def html2canvasSegmentedPrecheck (element : Option ElemModel)
    (clonedReferenceElementFound : Bool) (ctxAvailable : Bool) : Except String Unit :=
  match element with
  | none => Except.error "element is null"
  | some _ =>
    match prepare element clonedReferenceElementFound with
    | Except.error e => Except.error e
    | Except.ok _ =>
      if ctxAvailable = false then
        Except.error "ctx is null, maybe used too may resources"
      else Except.ok ()

/-- Behavior of the caller-supplied per-segment callback `op` for one
segment: it may return a non-thenable (`plain`), a thenable that resolves
(`thenableOk`), or a thenable that rejects (`thenableErr`). -/
inductive OpBehavior
  | plain
  | thenableOk
  | thenableErr
deriving DecidableEq, Repr

/-- Environment of one `html2canvasSegmented` call after `prepare` has
succeeded: the browser quantities read by the function and the outcome of
each fallible collaborator, keyed by the segment's `curTop`. -/
structure SegEnv where
  scale : ℤ
  scrollWidth : ℤ
  scrollHeight : ℤ
  ctxAvailable : Bool
  renderFails : ℤ → Bool
  opBehavior : ℤ → OpBehavior

/-- Observable events of the segmented capture: each collaborator call and
each canvas/container mutation, in program order.  `renderCall` and
`clearRect` record the scratch canvas dimensions read at that point. -/
inductive Ev
  | renderCall (curTop height canvasWidth canvasHeight : ℤ)
  | opCall (curTop : ℤ)
  | opAwaited (curTop : ℤ)
  | clearRect (curTop width height : ℤ)
  | releaseCanvas (curTop : ℤ)
  | canvasRemove
  | containerDestroy
deriving DecidableEq, Repr

/-- The sweep loop of `html2canvasSegmented` (src/src/index.ts lines 76-100)
as an event trace.  The third argument is the scratch canvas's dimensions on
loop entry; the loop body overwrites them (lines 78-79) before any read, so
the argument is never consumed.  Errors (a null 2D context, a rejected
`render`, a rejected callback thenable) abort the loop with the events
emitted so far; the returned `Bool` is whether the loop exited (as opposed
to running out of fuel). -/
def segLoop (env : SegEnv) (segmentHeight : ℤ) :
    ℕ → ℤ → ℤ × ℤ → List Ev × Bool × Option String
  | 0, curTop, _ => ([], decide (env.scrollHeight ≤ curTop), none)
  | n + 1, curTop, _ =>
    if curTop < env.scrollHeight then
      let height := min (env.scrollHeight - curTop) segmentHeight
      let canvasW := env.scale * env.scrollWidth
      let canvasH := env.scale * height
      if env.ctxAvailable = false then
        ([], true, some "ctx is null, maybe used too may resources")
      else if env.renderFails curTop then
        ([Ev.renderCall curTop height canvasW canvasH], true, some "render rejected")
      else
        match env.opBehavior curTop with
        | OpBehavior.thenableErr =>
          ([Ev.renderCall curTop height canvasW canvasH, Ev.opCall curTop], true,
            some "op rejected")
        | ob =>
          let awaitEvs := if ob = OpBehavior.thenableOk then [Ev.opAwaited curTop] else []
          let r := segLoop env segmentHeight n (curTop + height) (1, 1)
          (Ev.renderCall curTop height canvasW canvasH :: Ev.opCall curTop ::
              (awaitEvs ++ Ev.clearRect curTop canvasW canvasH ::
                Ev.releaseCanvas curTop :: r.1),
            r.2)
    else ([], true, none)

/-- `html2canvasSegmented` after a successful `prepare` (src/src/index.ts
lines 63-104): the pre-loop context check, the optimistic pre-loop canvas
sizing (lines 71-72), the sweep loop, and — only when the loop completes —
the trailing `canvas.remove()` and `destroyContainer(container)` (lines
101-103).  `removeContainer` is accepted (it is part of `Options`) but, like
the source, never read on this path. -/
def html2canvasSegmentedRun (env : SegEnv) (segmentHeight : ℤ)
    (removeContainer : Option Bool) (fuel : ℕ) : List Ev × Bool × Option String :=
  if env.ctxAvailable = false then
    ([], true, some "ctx is null, maybe used too may resources")
  else
    let initialDims : ℤ × ℤ := (env.scale * env.scrollWidth, env.scale * segmentHeight)
    let r := segLoop env segmentHeight fuel 0 initialDims
    match r.2.2 with
    | some e => (r.1, r.2.1, some e)
    | none =>
      if r.2.1 then (r.1 ++ [Ev.canvasRemove, Ev.containerDestroy], true, none)
      else (r.1, false, none)

/-- Variant of `html2canvasSegmentedRun` with the two pre-loop assignments
`canvas.width = ...; canvas.height = ...` (src/src/index.ts lines 71-72)
removed: the scratch canvas enters the loop with the host's default
dimensions 300 × 150 instead. -/
def html2canvasSegmentedRunNoPreAssign (env : SegEnv) (segmentHeight : ℤ)
    (removeContainer : Option Bool) (fuel : ℕ) : List Ev × Bool × Option String :=
  if env.ctxAvailable = false then
    ([], true, some "ctx is null, maybe used too may resources")
  else
    let initialDims : ℤ × ℤ := (300, 150)
    let r := segLoop env segmentHeight fuel 0 initialDims
    match r.2.2 with
    | some e => (r.1, r.2.1, some e)
    | none =>
      if r.2.1 then (r.1 ++ [Ev.canvasRemove, Ev.containerDestroy], true, none)
      else (r.1, false, none)

/-- Single-shot path `renderElement` (src/src/index.ts lines 120-130) after
a successful `prepare`: one full-height `render`, then
`destroyContainer(container)` guarded by `opts.removeContainer ?? true`. -/
def renderElementRun (env : SegEnv) (removeContainer : Option Bool) :
    List Ev × Option String :=
  let fullW := env.scale * env.scrollWidth
  let fullH := env.scale * env.scrollHeight
  if env.renderFails 0 then
    ([Ev.renderCall 0 env.scrollHeight fullW fullH], some "render rejected")
  else
    ([Ev.renderCall 0 env.scrollHeight fullW fullH] ++
        (if removeContainer.getD true then [Ev.containerDestroy] else []),
      none)

/-- Events of one successful segment of the sweep, in program order: paint
(`render`), callback invocation, the await of its thenable (when it returned
one), the `clearRect` of the scratch canvas, and `releaseCanvas`. -/
def segBlock (env : SegEnv) (seg : ℤ × ℤ) : List Ev :=
  Ev.renderCall seg.1 seg.2 (env.scale * env.scrollWidth) (env.scale * seg.2) ::
    Ev.opCall seg.1 ::
    ((if env.opBehavior seg.1 = OpBehavior.thenableOk then [Ev.opAwaited seg.1] else []) ++
      [Ev.clearRect seg.1 (env.scale * env.scrollWidth) (env.scale * seg.2),
        Ev.releaseCanvas seg.1])

/-- An encoded blob as produced by `html2canvasSegmentedGetBlobList`: the
segment whose raster was encoded together with the MIME type passed to
`canvas.toBlob` (the source's misspelled `mineType` parameter). -/
structure BlobModel where
  segment : ℤ × ℤ
  mineType : String
deriving DecidableEq, Repr

/-- Per-segment body of `html2canvasSegmentedGetBlobList` folded over the
emitted segments: `canvas.toBlob` either yields a blob, which is pushed onto
the result list, or yields `null`, which rejects with `'to blob failed!'`,
aborting the sweep. -/
def toBlobList (toBlobSucceeds : ℤ → Bool) (mineType : String) :
    List (ℤ × ℤ) → Except String (List BlobModel)
  | [] => Except.ok []
  | seg :: rest =>
    if toBlobSucceeds seg.1 then
      match toBlobList toBlobSucceeds mineType rest with
      | Except.ok bs => Except.ok (⟨seg, mineType⟩ :: bs)
      | Except.error e => Except.error e
    else Except.error "to blob failed!"

/-- `html2canvasSegmentedGetBlobList` (src/src/index.ts lines 19-42): run
the segmented sweep and encode each segment's raster in order, collecting
the blobs, rejecting on the first `null` blob.  `toBlobSucceeds` is keyed by
the segment's `curTop`. -/
def html2canvasSegmentedGetBlobList (totalHeight segmentHeight : ℤ)
    (toBlobSucceeds : ℤ → Bool) (mineType : String) (fuel : ℕ) :
    Except String (List BlobModel) :=
  toBlobList toBlobSucceeds mineType (sweepRun totalHeight segmentHeight fuel 0).1

/-- Environment whose `render` rejects on every segment; used to exercise
the error path of the sweep. -/
def envRenderFail : SegEnv :=
  { scale := 1, scrollWidth := 10, scrollHeight := 100, ctxAvailable := true,
    renderFails := fun _ => true, opBehavior := fun _ => OpBehavior.plain }

/-- Environment in which every collaborator succeeds and the callback
returns a non-thenable. -/
def envOk : SegEnv :=
  { scale := 1, scrollWidth := 10, scrollHeight := 100, ctxAvailable := true,
    renderFails := fun _ => false, opBehavior := fun _ => OpBehavior.plain }

/-- Environment in which every collaborator succeeds and the callback
returns a thenable that resolves. -/
def envAwait : SegEnv :=
  { scale := 1, scrollWidth := 10, scrollHeight := 100, ctxAvailable := true,
    renderFails := fun _ => false, opBehavior := fun _ => OpBehavior.thenableOk }

/-! Lemmas about the sweep loop. -/

lemma sweepRun_spec (totalHeight segmentHeight : ℤ) :
    ∀ (n : ℕ) (t : ℤ), (sweepRun totalHeight segmentHeight n t).2.2 = true →
      segsSpec totalHeight segmentHeight t (sweepRun totalHeight segmentHeight n t).1 := by
  intro n
  induction n with
  | zero =>
    intro t h
    simp only [sweepRun, decide_eq_true_eq] at h
    simpa [sweepRun, segsSpec] using h
  | succ n ih =>
    intro t h
    by_cases hlt : t < totalHeight
    · simp only [sweepRun, if_pos hlt] at h ⊢
      exact ⟨rfl, rfl, hlt, ih _ h⟩
    · simp only [sweepRun, if_neg hlt]
      simp [segsSpec]
      omega

lemma segsSpec_heights (totalHeight segmentHeight : ℤ) :
    ∀ (l : List (ℤ × ℤ)) (t : ℤ), segsSpec totalHeight segmentHeight t l →
      segHeights totalHeight segmentHeight l := by
  intro l
  induction l with
  | nil =>
    intro t _ i hi
    simp at hi
  | cons p rest ih =>
    intro t hspec i hi
    obtain ⟨c, h⟩ := p
    obtain ⟨hc, hh, hlt, hrest⟩ := hspec
    cases i with
    | zero =>
      simp only [List.getElem_cons_zero]
      omega
    | succ i =>
      simp only [List.getElem_cons_succ]
      exact ih (t + h) hrest i (by simpa using Nat.lt_of_succ_lt_succ hi)

lemma segsSpec_chained (totalHeight segmentHeight : ℤ) :
    ∀ (l : List (ℤ × ℤ)) (t : ℤ), segsSpec totalHeight segmentHeight t l →
      segChained l := by
  intro l
  induction l with
  | nil =>
    intro t _ i hi
    simp at hi
  | cons p rest ih =>
    intro t hspec i hi
    obtain ⟨c, h⟩ := p
    obtain ⟨hc, hh, hlt, hrest⟩ := hspec
    cases i with
    | zero =>
      cases rest with
      | nil => simp at hi
      | cons q rest2 =>
        obtain ⟨hq, _, _, _⟩ := hrest
        simp only [List.getElem_cons_succ, List.getElem_cons_zero]
        omega
    | succ i =>
      simp only [List.getElem_cons_succ]
      exact ih (t + h) hrest i (by simpa using Nat.lt_of_succ_lt_succ hi)

lemma segsSpec_last (totalHeight segmentHeight : ℤ) :
    ∀ (l : List (ℤ × ℤ)) (t : ℤ), segsSpec totalHeight segmentHeight t l →
      segLastCovers totalHeight l := by
  intro l
  induction l with
  | nil =>
    intro t _ p hp
    simp at hp
  | cons q rest ih =>
    intro t hspec p hp
    obtain ⟨c, h⟩ := q
    obtain ⟨hc, hh, hlt, hrest⟩ := hspec
    cases rest with
    | nil =>
      simp only [List.getLast?_singleton, Option.some_inj] at hp
      subst hp
      simp only [segsSpec] at hrest
      simp
      omega
    | cons q2 rest2 =>
      rw [List.getLast?_cons_cons] at hp
      exact ih (t + h) hrest p hp

lemma segsSpec_starts (totalHeight segmentHeight : ℤ) (t : ℤ) (l : List (ℤ × ℤ))
    (hspec : segsSpec totalHeight segmentHeight t l) (hlt : t < totalHeight) :
    ∃ hh rest, l = (t, hh) :: rest := by
  cases l with
  | nil => exact absurd hspec (by simp [segsSpec]; omega)
  | cons p rest =>
    obtain ⟨c, h⟩ := p
    obtain ⟨hc, _, _, _⟩ := hspec
    exact ⟨h, rest, by rw [hc]⟩

lemma sweepRun_done_of_fuel (totalHeight segmentHeight : ℤ) (hsh : 0 < segmentHeight) :
    ∀ (n : ℕ) (t : ℤ), totalHeight - t ≤ (n : ℤ) →
      (sweepRun totalHeight segmentHeight n t).2.2 = true := by
  intro n
  induction n with
  | zero =>
    intro t hle
    simp only [sweepRun]
    exact decide_eq_true (by omega)
  | succ n ih =>
    intro t hle
    by_cases hlt : t < totalHeight
    · simp only [sweepRun, if_pos hlt]
      exact ih _ (by push_cast at hle ⊢; omega)
    · simp [sweepRun, hlt]

lemma sweepRun_stuck (totalHeight segmentHeight : ℤ) (hsh : segmentHeight ≤ 0) :
    ∀ (n : ℕ) (t : ℤ), t < totalHeight →
      (sweepRun totalHeight segmentHeight n t).2.2 = false ∧
        (sweepRun totalHeight segmentHeight n t).2.1 ≤ t := by
  intro n
  induction n with
  | zero =>
    intro t hlt
    refine ⟨?_, le_of_eq rfl⟩
    simp only [sweepRun]
    exact decide_eq_false (by omega)
  | succ n ih =>
    intro t hlt
    have hlt2 : t + min (totalHeight - t) segmentHeight < totalHeight := by omega
    have hrec := ih (t + min (totalHeight - t) segmentHeight) hlt2
    constructor
    · simp only [sweepRun, if_pos hlt]
      exact hrec.1
    · simp only [sweepRun, if_pos hlt]
      exact le_trans hrec.2 (by omega)

lemma sweepRun_length_eq (totalHeight segmentHeight : ℤ) (hsh : 0 < segmentHeight) :
    ∀ (n : ℕ) (t : ℤ), t ≤ totalHeight →
      (sweepRun totalHeight segmentHeight n t).2.2 = true →
      ((sweepRun totalHeight segmentHeight n t).1.length : ℤ) =
        (totalHeight - t + segmentHeight - 1) / segmentHeight := by
  intro n
  induction n with
  | zero =>
    intro t hle hdone
    simp only [sweepRun, decide_eq_true_eq] at hdone
    have ht : t = totalHeight := le_antisymm hle hdone
    rw [ht]
    simp only [sweepRun, List.length_nil, Nat.cast_zero]
    rw [show totalHeight - totalHeight + segmentHeight - 1 = segmentHeight - 1 by ring]
    exact (Int.ediv_eq_zero_of_lt (by omega) (by omega)).symm
  | succ n ih =>
    intro t hle hdone
    by_cases hlt : t < totalHeight
    · have hdone2 :
          (sweepRun totalHeight segmentHeight n
            (t + min (totalHeight - t) segmentHeight)).2.2 = true := by
        simpa only [sweepRun, if_pos hlt] using hdone
      have hle2 : t + min (totalHeight - t) segmentHeight ≤ totalHeight := by omega
      have hrec := ih (t + min (totalHeight - t) segmentHeight) hle2 hdone2
      have hkey : (totalHeight - t + segmentHeight - 1) / segmentHeight
          = (totalHeight - t - 1) / segmentHeight + 1 := by
        have h2 := Int.add_mul_ediv_right (totalHeight - t - 1) 1
          (show segmentHeight ≠ 0 by omega)
        rw [one_mul] at h2
        rw [show totalHeight - t + segmentHeight - 1
          = totalHeight - t - 1 + segmentHeight by ring, h2]
      have hsub : (totalHeight - (t + min (totalHeight - t) segmentHeight)
            + segmentHeight - 1) / segmentHeight
          = (totalHeight - t - 1) / segmentHeight := by
        rcases le_or_lt (totalHeight - t) segmentHeight with hc | hc
        · rw [show totalHeight - (t + min (totalHeight - t) segmentHeight)
            + segmentHeight - 1 = segmentHeight - 1 by omega]
          rw [Int.ediv_eq_zero_of_lt (by omega) (by omega),
            Int.ediv_eq_zero_of_lt (by omega) (by omega)]
        · have hm : min (totalHeight - t) segmentHeight = segmentHeight := by omega
          rw [hm]
          congr 1
          ring
      have hcons : (sweepRun totalHeight segmentHeight (n + 1) t).1
          = (t, min (totalHeight - t) segmentHeight) ::
            (sweepRun totalHeight segmentHeight n
              (t + min (totalHeight - t) segmentHeight)).1 := by
        simp only [sweepRun, if_pos hlt]
      rw [hcons]
      push_cast [List.length_cons]
      rw [hrec, hsub, hkey]
    · have ht : t = totalHeight := by omega
      rw [ht]
      simp only [sweepRun, if_neg (lt_irrefl totalHeight), List.length_nil, Nat.cast_zero]
      rw [show totalHeight - totalHeight + segmentHeight - 1 = segmentHeight - 1 by ring]
      exact (Int.ediv_eq_zero_of_lt (by omega) (by omega)).symm

/-! Claim theorems for the sweep arithmetic. -/

/-- C1: for `totalHeight > 0` and `segmentHeight > 0`, any terminating run of
the sweep loop of `html2canvasSegmented` emits `(curTop, height)` pairs with
`curTop_0 = 0`, `curTop_(i+1) = curTop_i + height_i`,
`height_i = min(segmentHeight, totalHeight - curTop_i)`, and the last pair
ending exactly at `totalHeight`; concretely, `scrollHeight = 250` with
`segmentHeight = 100` yields the segments `(0,100), (100,100), (200,50)` and
exactly three callback invocations. -/
theorem segments_cover_partition (totalHeight segmentHeight : ℤ) (n : ℕ)
    (hth : 0 < totalHeight) (hsh : 0 < segmentHeight)
    (hdone : (sweepRun totalHeight segmentHeight n 0).2.2 = true) :
    segStartsAtZero (sweepRun totalHeight segmentHeight n 0).1 ∧
    segChained (sweepRun totalHeight segmentHeight n 0).1 ∧
    segHeights totalHeight segmentHeight (sweepRun totalHeight segmentHeight n 0).1 ∧
    segLastCovers totalHeight (sweepRun totalHeight segmentHeight n 0).1 ∧
    (sweepRun 250 100 3 0).1 = [(0, 100), (100, 100), (200, 50)] ∧
    (sweepRun 250 100 3 0).1.length = 3 := by
  have hspec := sweepRun_spec totalHeight segmentHeight n 0 hdone
  obtain ⟨hh, rest, heq⟩ :=
    segsSpec_starts totalHeight segmentHeight 0 _ hspec hth
  refine ⟨⟨(0, hh), ?_, rfl⟩,
    segsSpec_chained totalHeight segmentHeight _ _ hspec,
    segsSpec_heights totalHeight segmentHeight _ _ hspec,
    segsSpec_last totalHeight segmentHeight _ _ hspec,
    by decide, by decide⟩
  rw [heq]
  rfl

/-- Witness for `segments_cover_partition` at `totalHeight = 250`,
`segmentHeight = 100`, fuel 3. -/
theorem segments_cover_partition_witness :
    ((0 : ℤ) < 250 ∧ (0 : ℤ) < 100 ∧ (sweepRun 250 100 3 0).2.2 = true) ∧
    (segStartsAtZero (sweepRun 250 100 3 0).1 ∧
      segChained (sweepRun 250 100 3 0).1 ∧
      segHeights 250 100 (sweepRun 250 100 3 0).1 ∧
      segLastCovers 250 (sweepRun 250 100 3 0).1 ∧
      (sweepRun 250 100 3 0).1 = [(0, 100), (100, 100), (200, 50)] ∧
      (sweepRun 250 100 3 0).1.length = 3) :=
  ⟨⟨by decide, by decide, by decide⟩,
    segments_cover_partition 250 100 3 (by decide) (by decide) (by decide)⟩

/-- C10: the sweep loop of `html2canvasSegmented` terminates exactly when
`segmentHeight > 0` or `scrollHeight ≤ 0`; with `segmentHeight > 0` and
`scrollHeight > 0` a terminating run performs exactly
`ceil(scrollHeight / segmentHeight)` iterations; with `scrollHeight ≤ 0` it
performs zero iterations and exits at once; with `segmentHeight ≤ 0` and
`scrollHeight > 0` the loop never reaches its exit condition and `curTop`
never increases. -/
theorem sweep_termination_characterization (totalHeight segmentHeight : ℤ) :
    (sweepTerminates totalHeight segmentHeight ↔
      (0 < segmentHeight ∨ totalHeight ≤ 0)) ∧
    (∀ n : ℕ, 0 < segmentHeight → 0 < totalHeight →
      (sweepRun totalHeight segmentHeight n 0).2.2 = true →
      ((sweepRun totalHeight segmentHeight n 0).1.length : ℤ) =
        (totalHeight + segmentHeight - 1) / segmentHeight) ∧
    (totalHeight ≤ 0 → ∀ n : ℕ,
      (sweepRun totalHeight segmentHeight n 0).1 = [] ∧
      (sweepRun totalHeight segmentHeight n 0).2.2 = true) ∧
    (segmentHeight ≤ 0 → 0 < totalHeight → ∀ n : ℕ,
      (sweepRun totalHeight segmentHeight n 0).2.2 = false ∧
      (sweepRun totalHeight segmentHeight n 0).2.1 ≤ 0) := by
  refine ⟨⟨?_, ?_⟩, ?_, ?_, ?_⟩
  · rintro ⟨n, hn⟩
    by_contra hcon
    push_neg at hcon
    obtain ⟨hsh, hth⟩ := hcon
    have := (sweepRun_stuck totalHeight segmentHeight (by omega) n 0 (by omega)).1
    rw [this] at hn
    exact Bool.noConfusion hn
  · rintro (hsh | hth)
    · exact ⟨totalHeight.toNat,
        sweepRun_done_of_fuel totalHeight segmentHeight hsh _ 0
          (by omega)⟩
    · exact ⟨0, by simp only [sweepRun]; exact decide_eq_true (by omega)⟩
  · intro n hsh hth hdone
    have := sweepRun_length_eq totalHeight segmentHeight hsh n 0 (by omega) hdone
    simpa using this
  · intro hth n
    cases n with
    | zero =>
      refine ⟨rfl, ?_⟩
      simp only [sweepRun]
      exact decide_eq_true (by omega)
    | succ n =>
      have hlt : ¬ (0 : ℤ) < totalHeight := by omega
      constructor <;> simp [sweepRun, hlt]
  · intro hsh hth n
    exact sweepRun_stuck totalHeight segmentHeight hsh n 0 hth

/-- Witness for `sweep_termination_characterization`: the iteration-count
conjunct at `totalHeight = 250`, `segmentHeight = 100`, fuel 3. -/
theorem sweep_termination_characterization_witness :
    ((0 : ℤ) < 100 ∧ (0 : ℤ) < 250 ∧ (sweepRun 250 100 3 0).2.2 = true) ∧
    ((sweepRun 250 100 3 0).1.length : ℤ) = (250 + 100 - 1) / 100 :=
  ⟨⟨by decide, by decide, by decide⟩,
    (sweep_termination_characterization 250 100).2.1 3 (by decide) (by decide) (by decide)⟩

/-- C3: `parseBackgroundColor` resolves the effective background by fixed
precedence.  For a non-root element the caller override alone decides
(string → parsed, `null` → transparent, unset → opaque white), regardless of
document/body colors; for the document root the document element's own
background wins unless transparent, then the body's, and the override is
used only when both are transparent.  Concretely, transparent document +
opaque red body + unset override gives red, and an opaque blue document
gives blue for any override. -/
theorem parseBackgroundColor_precedence :
    (∀ (parse : String → ℕ) (env : DomEnv) (s : String),
      parseBackgroundColor parse env false (some (some s)) = parse s) ∧
    (∀ (parse : String → ℕ) (env : DomEnv),
      parseBackgroundColor parse env false (some none) = TRANSPARENT) ∧
    (∀ (parse : String → ℕ) (env : DomEnv),
      parseBackgroundColor parse env false none = WHITE) ∧
    (∀ (parse : String → ℕ) (ds : String) (bs : Option String)
        (ov : Option (Option String)), isTransparent (parse ds) = false →
      parseBackgroundColor parse ⟨some ds, bs⟩ true ov = parse ds) ∧
    (∀ (parse : String → ℕ) (ds bs : String) (ov : Option (Option String)),
      isTransparent (parse ds) = true → isTransparent (parse bs) = false →
      parseBackgroundColor parse ⟨some ds, some bs⟩ true ov = parse bs) ∧
    (∀ (parse : String → ℕ) (ds bs : String) (ov : Option (Option String)),
      isTransparent (parse ds) = true → isTransparent (parse bs) = true →
      parseBackgroundColor parse ⟨some ds, some bs⟩ true ov =
        (match ov with
          | some (some s) => parse s
          | some none => TRANSPARENT
          | none => WHITE)) ∧
    (parseBackgroundColor sampleParse ⟨some "transparent", some "red"⟩ true none
      = 0xff0000ff) ∧
    (∀ ov : Option (Option String),
      parseBackgroundColor sampleParse ⟨some "blue", some "red"⟩ true ov
        = 0x0000ffff) := by
  refine ⟨fun _ _ _ => rfl, fun _ _ => rfl, fun _ _ => rfl, ?_, ?_, ?_, by decide, ?_⟩
  · intro parse ds bs ov hds
    simp [parseBackgroundColor, hds]
  · intro parse ds bs ov hds hbs
    simp [parseBackgroundColor, hds, hbs]
  · intro parse ds bs ov hds hbs
    rcases ov with _ | (_ | s) <;> simp [parseBackgroundColor, hds, hbs]
  · intro ov
    have hblue : isTransparent 65535 = false := by decide
    simp [parseBackgroundColor, sampleParse, hblue]

/-- Witness for `parseBackgroundColor_precedence`: the root-element
conjuncts instantiated on the concrete sample colors. -/
theorem parseBackgroundColor_precedence_witness :
    (isTransparent (sampleParse "blue") = false ∧
      parseBackgroundColor sampleParse ⟨some "blue", some "red"⟩ true none
        = sampleParse "blue") ∧
    (isTransparent (sampleParse "transparent") = true ∧
      isTransparent (sampleParse "red") = false ∧
      parseBackgroundColor sampleParse ⟨some "transparent", some "red"⟩ true none
        = sampleParse "red") :=
  ⟨⟨by decide,
      parseBackgroundColor_precedence.2.2.2.1 sampleParse "blue" (some "red") none
        (by decide)⟩,
    ⟨by decide, by decide,
      parseBackgroundColor_precedence.2.2.2.2.1 sampleParse "transparent" "red" none
        (by decide) (by decide)⟩⟩

/-- C4: in the software-painter path of `render`, if the resolved effective
background equals the parsed root's computed background, the root's
background is forced to the transparent sentinel before the painter runs;
hence a non-transparent resolved background is never also the root paint
node's background. -/
theorem render_root_background_suppression (parse : String → ℕ) (env : DomEnv)
    (isDocumentElement : Bool) (ov : Option (Option String))
    (rootStylesBackgroundColor : ℕ) :
    (parseBackgroundColor parse env isDocumentElement ov = rootStylesBackgroundColor →
      (renderBackgroundPair parse env isDocumentElement ov rootStylesBackgroundColor).2
        = TRANSPARENT) ∧
    ((renderBackgroundPair parse env isDocumentElement ov rootStylesBackgroundColor).1
        ≠ TRANSPARENT →
      (renderBackgroundPair parse env isDocumentElement ov rootStylesBackgroundColor).2
        ≠ (renderBackgroundPair parse env isDocumentElement ov
            rootStylesBackgroundColor).1) := by
  constructor
  · intro h
    simp [renderBackgroundPair, h]
  · intro h1
    by_cases heq : parseBackgroundColor parse env isDocumentElement ov
        = rootStylesBackgroundColor
    · simp only [renderBackgroundPair, if_pos heq] at h1 ⊢
      exact fun hc => h1 hc.symm
    · simp only [renderBackgroundPair, if_neg heq]
      exact fun hc => heq hc.symm

/-- Witness for `render_root_background_suppression`: opaque blue document,
root computed background also blue. -/
theorem render_root_background_suppression_witness :
    (parseBackgroundColor sampleParse ⟨some "blue", some "red"⟩ true none
        = 0x0000ffff ∧
      (renderBackgroundPair sampleParse ⟨some "blue", some "red"⟩ true none
          0x0000ffff).2 = TRANSPARENT) ∧
    ((renderBackgroundPair sampleParse ⟨some "blue", some "red"⟩ true none
          0x0000ffff).1 ≠ TRANSPARENT ∧
      (renderBackgroundPair sampleParse ⟨some "blue", some "red"⟩ true none
          0x0000ffff).2
        ≠ (renderBackgroundPair sampleParse ⟨some "blue", some "red"⟩ true none
            0x0000ffff).1) :=
  ⟨⟨by decide,
      (render_root_background_suppression sampleParse ⟨some "blue", some "red"⟩ true
          none 0x0000ffff).1 (by decide)⟩,
    ⟨by decide,
      (render_root_background_suppression sampleParse ⟨some "blue", some "red"⟩ true
          none 0x0000ffff).2 (by decide)⟩⟩

/-- C5: both entry operations reject with a descriptive error before any
painting work when a precondition fails: `html2canvasSegmented` for a null
element; `prepare` (hence both entries) for a non-object element, a missing
`ownerDocument`, a missing `defaultView`, and an unlocatable cloned element;
and the segmented path when no 2D context can be obtained — in which case
the run performs no paint work at all. -/
theorem precondition_rejections :
    (∀ cf ctx : Bool,
      html2canvasSegmentedPrecheck none cf ctx = Except.error "element is null") ∧
    (∀ (od : Option DocModel) (cf : Bool),
      prepare (some ⟨false, od⟩) cf
        = Except.error "Invalid element provided as first argument") ∧
    (∀ cf : Bool,
      prepare (some ⟨true, none⟩) cf
        = Except.error "Element is not attached to a Document") ∧
    (∀ cf : Bool,
      prepare (some ⟨true, some ⟨false⟩⟩) cf
        = Except.error "Document is not attached to a Window") ∧
    (prepare (some ⟨true, some ⟨true⟩⟩) false
      = Except.error "Unable to find element in cloned iframe") ∧
    (∀ (od : Option DocModel) (cf ctx : Bool),
      html2canvasSegmentedPrecheck (some ⟨false, od⟩) cf ctx
        = Except.error "Invalid element provided as first argument") ∧
    (∀ cf ctx : Bool,
      html2canvasSegmentedPrecheck (some ⟨true, none⟩) cf ctx
        = Except.error "Element is not attached to a Document") ∧
    (∀ ctx : Bool,
      html2canvasSegmentedPrecheck (some ⟨true, some ⟨false⟩⟩) true ctx
        = Except.error "Document is not attached to a Window") ∧
    (∀ ctx : Bool,
      html2canvasSegmentedPrecheck (some ⟨true, some ⟨true⟩⟩) false ctx
        = Except.error "Unable to find element in cloned iframe") ∧
    (html2canvasSegmentedPrecheck (some ⟨true, some ⟨true⟩⟩) true false
      = Except.error "ctx is null, maybe used too may resources") ∧
    (∀ (sc w th : ℤ) (rf : ℤ → Bool) (ob : ℤ → OpBehavior) (sh : ℤ)
        (rc : Option Bool) (fuel : ℕ),
      html2canvasSegmentedRun ⟨sc, w, th, false, rf, ob⟩ sh rc fuel =
        ([], true, some "ctx is null, maybe used too may resources")) :=
  ⟨fun _ _ => rfl, fun _ _ => rfl, fun _ => rfl, fun _ => rfl, rfl,
    fun _ _ _ => rfl, fun _ _ => rfl, fun _ => rfl, fun _ => rfl, rfl,
    fun _ _ _ _ _ _ _ _ => rfl⟩

/-! Lemmas about the event-trace model of `html2canvasSegmented`. -/

lemma segLoop_dims_irrel (env : SegEnv) (segmentHeight : ℤ) (n : ℕ) (t : ℤ)
    (d d' : ℤ × ℤ) :
    segLoop env segmentHeight n t d = segLoop env segmentHeight n t d' := by
  cases n <;> rfl

lemma segLoop_succ_exit (env : SegEnv) (segmentHeight : ℤ) (n : ℕ) (t : ℤ)
    (d : ℤ × ℤ) (hlt : ¬ t < env.scrollHeight) :
    segLoop env segmentHeight (n + 1) t d = ([], true, none) := by
  simp [segLoop, hlt]

lemma segLoop_succ_ctx (env : SegEnv) (segmentHeight : ℤ) (n : ℕ) (t : ℤ)
    (d : ℤ × ℤ) (hlt : t < env.scrollHeight) (hctx : env.ctxAvailable = false) :
    segLoop env segmentHeight (n + 1) t d =
      ([], true, some "ctx is null, maybe used too may resources") := by
  simp [segLoop, hlt, hctx]

lemma segLoop_succ_renderFail (env : SegEnv) (segmentHeight : ℤ) (n : ℕ) (t : ℤ)
    (d : ℤ × ℤ) (hlt : t < env.scrollHeight) (hctx : env.ctxAvailable = true)
    (hrf : env.renderFails t = true) :
    segLoop env segmentHeight (n + 1) t d =
      ([Ev.renderCall t (min (env.scrollHeight - t) segmentHeight)
          (env.scale * env.scrollWidth)
          (env.scale * min (env.scrollHeight - t) segmentHeight)],
        true, some "render rejected") := by
  simp [segLoop, hlt, hctx, hrf]

lemma segLoop_succ_opErr (env : SegEnv) (segmentHeight : ℤ) (n : ℕ) (t : ℤ)
    (d : ℤ × ℤ) (hlt : t < env.scrollHeight) (hctx : env.ctxAvailable = true)
    (hrf : env.renderFails t = false)
    (hob : env.opBehavior t = OpBehavior.thenableErr) :
    segLoop env segmentHeight (n + 1) t d =
      ([Ev.renderCall t (min (env.scrollHeight - t) segmentHeight)
          (env.scale * env.scrollWidth)
          (env.scale * min (env.scrollHeight - t) segmentHeight),
        Ev.opCall t],
        true, some "op rejected") := by
  simp [segLoop, hlt, hctx, hrf, hob]

lemma segLoop_succ_step (env : SegEnv) (segmentHeight : ℤ) (n : ℕ) (t : ℤ)
    (d : ℤ × ℤ) (hlt : t < env.scrollHeight) (hctx : env.ctxAvailable = true)
    (hrf : env.renderFails t = false)
    (hob : env.opBehavior t ≠ OpBehavior.thenableErr) :
    segLoop env segmentHeight (n + 1) t d =
      (Ev.renderCall t (min (env.scrollHeight - t) segmentHeight)
          (env.scale * env.scrollWidth)
          (env.scale * min (env.scrollHeight - t) segmentHeight) ::
        Ev.opCall t ::
        ((if env.opBehavior t = OpBehavior.thenableOk then [Ev.opAwaited t] else []) ++
          Ev.clearRect t (env.scale * env.scrollWidth)
            (env.scale * min (env.scrollHeight - t) segmentHeight) ::
          Ev.releaseCanvas t ::
          (segLoop env segmentHeight n
            (t + min (env.scrollHeight - t) segmentHeight) (1, 1)).1),
        (segLoop env segmentHeight n
          (t + min (env.scrollHeight - t) segmentHeight) (1, 1)).2) := by
  cases hob2 : env.opBehavior t with
  | thenableErr => exact absurd hob2 hob
  | plain => simp [segLoop, hlt, hctx, hrf, hob2]
  | thenableOk => simp [segLoop, hlt, hctx, hrf, hob2]

lemma segLoop_no_cleanup (env : SegEnv) (segmentHeight : ℤ) :
    ∀ (n : ℕ) (t : ℤ) (d : ℤ × ℤ),
      Ev.canvasRemove ∉ (segLoop env segmentHeight n t d).1 ∧
      Ev.containerDestroy ∉ (segLoop env segmentHeight n t d).1 := by
  intro n
  induction n with
  | zero => intro t d; simp [segLoop]
  | succ n ih =>
    intro t d
    by_cases hlt : t < env.scrollHeight
    · cases hctx : env.ctxAvailable with
      | false => rw [segLoop_succ_ctx env segmentHeight n t d hlt hctx]; simp
      | true =>
        cases hrf : env.renderFails t with
        | true => rw [segLoop_succ_renderFail env segmentHeight n t d hlt hctx hrf]; simp
        | false =>
          by_cases hob : env.opBehavior t = OpBehavior.thenableErr
          · rw [segLoop_succ_opErr env segmentHeight n t d hlt hctx hrf hob]; simp
          · rw [segLoop_succ_step env segmentHeight n t d hlt hctx hrf hob]
            have ihm := ih (t + min (env.scrollHeight - t) segmentHeight)
              ((1 : ℤ), (1 : ℤ))
            by_cases hok : env.opBehavior t = OpBehavior.thenableOk
            · simp only [if_pos hok]
              simp [ihm.1, ihm.2, -Prod.mk_one_one]
            · simp only [if_neg hok]
              simp [ihm.1, ihm.2, -Prod.mk_one_one]
    · rw [segLoop_succ_exit env segmentHeight n t d hlt]; simp

lemma segLoop_error_shape (env : SegEnv) (segmentHeight : ℤ) :
    ∀ (n : ℕ) (t : ℤ) (d : ℤ × ℤ) (msg : String),
      (segLoop env segmentHeight n t d).2.2 = some msg →
      (msg = "ctx is null, maybe used too may resources" ∧
        env.ctxAvailable = false ∧ (segLoop env segmentHeight n t d).1 = []) ∨
      (msg = "render rejected" ∧ ∃ pre c h cw ch,
        (segLoop env segmentHeight n t d).1 = pre ++ [Ev.renderCall c h cw ch] ∧
        env.renderFails c = true) ∨
      (msg = "op rejected" ∧ ∃ pre c,
        (segLoop env segmentHeight n t d).1 = pre ++ [Ev.opCall c] ∧
        env.opBehavior c = OpBehavior.thenableErr) := by
  intro n
  induction n with
  | zero => intro t d msg h; simp [segLoop] at h
  | succ n ih =>
    intro t d msg h
    by_cases hlt : t < env.scrollHeight
    · cases hctx : env.ctxAvailable with
      | false =>
        rw [segLoop_succ_ctx env segmentHeight n t d hlt hctx] at h ⊢
        simp only [Option.some_inj] at h
        exact Or.inl ⟨h.symm, rfl, rfl⟩
      | true =>
        cases hrf : env.renderFails t with
        | true =>
          rw [segLoop_succ_renderFail env segmentHeight n t d hlt hctx hrf] at h ⊢
          simp only [Option.some_inj] at h
          exact Or.inr (Or.inl ⟨h.symm, [], t,
            min (env.scrollHeight - t) segmentHeight,
            env.scale * env.scrollWidth,
            env.scale * min (env.scrollHeight - t) segmentHeight, rfl, hrf⟩)
        | false =>
          by_cases hob : env.opBehavior t = OpBehavior.thenableErr
          · rw [segLoop_succ_opErr env segmentHeight n t d hlt hctx hrf hob] at h ⊢
            simp only [Option.some_inj] at h
            exact Or.inr (Or.inr ⟨h.symm,
              [Ev.renderCall t (min (env.scrollHeight - t) segmentHeight)
                (env.scale * env.scrollWidth)
                (env.scale * min (env.scrollHeight - t) segmentHeight)],
              t, rfl, hob⟩)
          · rw [segLoop_succ_step env segmentHeight n t d hlt hctx hrf hob] at h ⊢
            have h2 : (segLoop env segmentHeight n
                (t + min (env.scrollHeight - t) segmentHeight) (1, 1)).2.2
                = some msg := h
            rcases ih (t + min (env.scrollHeight - t) segmentHeight) (1, 1) msg h2 with
              hcase | hcase | hcase
            · exact absurd hcase.2.1 (by simp [hctx])
            · obtain ⟨hmsg, pre, c, hh, cw, ch, heq, hfail⟩ := hcase
              refine Or.inr (Or.inl ⟨hmsg,
                Ev.renderCall t (min (env.scrollHeight - t) segmentHeight)
                    (env.scale * env.scrollWidth)
                    (env.scale * min (env.scrollHeight - t) segmentHeight) ::
                  Ev.opCall t ::
                  ((if env.opBehavior t = OpBehavior.thenableOk
                      then [Ev.opAwaited t] else []) ++
                    Ev.clearRect t (env.scale * env.scrollWidth)
                      (env.scale * min (env.scrollHeight - t) segmentHeight) ::
                    Ev.releaseCanvas t :: pre),
                c, hh, cw, ch, ?_, hfail⟩)
              rw [heq]
              simp
            · obtain ⟨hmsg, pre, c, heq, hfail⟩ := hcase
              refine Or.inr (Or.inr ⟨hmsg,
                Ev.renderCall t (min (env.scrollHeight - t) segmentHeight)
                    (env.scale * env.scrollWidth)
                    (env.scale * min (env.scrollHeight - t) segmentHeight) ::
                  Ev.opCall t ::
                  ((if env.opBehavior t = OpBehavior.thenableOk
                      then [Ev.opAwaited t] else []) ++
                    Ev.clearRect t (env.scale * env.scrollWidth)
                      (env.scale * min (env.scrollHeight - t) segmentHeight) ::
                    Ev.releaseCanvas t :: pre),
                c, ?_, hfail⟩)
              rw [heq]
              simp
    · rw [segLoop_succ_exit env segmentHeight n t d hlt] at h
      exact Option.noConfusion h

lemma segLoop_success_trace (env : SegEnv) (segmentHeight : ℤ)
    (hctx : env.ctxAvailable = true)
    (hrf : ∀ t, env.renderFails t = false)
    (hob : ∀ t, env.opBehavior t ≠ OpBehavior.thenableErr) :
    ∀ (n : ℕ) (t : ℤ) (d : ℤ × ℤ),
      (segLoop env segmentHeight n t d).1 =
        ((sweepRun env.scrollHeight segmentHeight n t).1.map (segBlock env)).flatten ∧
      (segLoop env segmentHeight n t d).2.1 =
        (sweepRun env.scrollHeight segmentHeight n t).2.2 ∧
      (segLoop env segmentHeight n t d).2.2 = none := by
  intro n
  induction n with
  | zero => intro t d; simp [segLoop, sweepRun]
  | succ n ih =>
    intro t d
    by_cases hlt : t < env.scrollHeight
    · have ihm := ih (t + min (env.scrollHeight - t) segmentHeight) (1, 1)
      have hswl : (sweepRun env.scrollHeight segmentHeight (n + 1) t).1 =
          (t, min (env.scrollHeight - t) segmentHeight) ::
            (sweepRun env.scrollHeight segmentHeight n
              (t + min (env.scrollHeight - t) segmentHeight)).1 := by
        simp [sweepRun, hlt]
      have hswd : (sweepRun env.scrollHeight segmentHeight (n + 1) t).2.2 =
          (sweepRun env.scrollHeight segmentHeight n
            (t + min (env.scrollHeight - t) segmentHeight)).2.2 := by
        simp [sweepRun, hlt]
      rw [segLoop_succ_step env segmentHeight n t d hlt hctx (hrf t) (hob t)]
      refine ⟨?_, ?_, ihm.2.2⟩
      · rw [hswl]
        simp only [List.map_cons, List.flatten_cons]
        rw [ihm.1]
        simp [segBlock]
      · rw [hswd]
        exact ihm.2.1
    · rw [segLoop_succ_exit env segmentHeight n t d hlt]
      simp [sweepRun, hlt]

/-! Lemmas about the blob-collecting wrapper. -/

lemma toBlobList_ok (toBlobSucceeds : ℤ → Bool) (mineType : String) :
    ∀ l : List (ℤ × ℤ), (∀ s ∈ l, toBlobSucceeds s.1 = true) →
      toBlobList toBlobSucceeds mineType l =
        Except.ok (l.map fun s => ⟨s, mineType⟩) := by
  intro l
  induction l with
  | nil => intro _; rfl
  | cons s rest ih =>
    intro hall
    have hs : toBlobSucceeds s.1 = true := hall s (List.mem_cons_self s rest)
    have hrest := ih fun x hx => hall x (List.mem_cons_of_mem s hx)
    simp [toBlobList, hs, hrest]

lemma toBlobList_error (toBlobSucceeds : ℤ → Bool) (mineType : String) :
    ∀ l : List (ℤ × ℤ), (∃ s ∈ l, toBlobSucceeds s.1 = false) →
      toBlobList toBlobSucceeds mineType l = Except.error "to blob failed!" := by
  intro l
  induction l with
  | nil => rintro ⟨s, hs, _⟩; simp at hs
  | cons s rest ih =>
    rintro ⟨x, hx, hfail⟩
    cases hs : toBlobSucceeds s.1 with
    | false => simp [toBlobList, hs]
    | true =>
      rcases List.mem_cons.mp hx with hxs | hxrest
      · rw [hxs] at hfail
        rw [hfail] at hs
        exact Bool.noConfusion hs
      · simp [toBlobList, hs, ih ⟨x, hxrest, hfail⟩]

lemma run_ctx_false (env : SegEnv) (segmentHeight : ℤ) (removeContainer : Option Bool)
    (fuel : ℕ) (hctx : env.ctxAvailable = false) :
    html2canvasSegmentedRun env segmentHeight removeContainer fuel =
      ([], true, some "ctx is null, maybe used too may resources") := by
  simp [html2canvasSegmentedRun, hctx]

lemma run_loop_err (env : SegEnv) (segmentHeight : ℤ) (removeContainer : Option Bool)
    (fuel : ℕ) (e : String) (hctx : env.ctxAvailable = true)
    (hr : (segLoop env segmentHeight fuel 0
      (env.scale * env.scrollWidth, env.scale * segmentHeight)).2.2 = some e) :
    html2canvasSegmentedRun env segmentHeight removeContainer fuel =
      ((segLoop env segmentHeight fuel 0
          (env.scale * env.scrollWidth, env.scale * segmentHeight)).1,
        (segLoop env segmentHeight fuel 0
          (env.scale * env.scrollWidth, env.scale * segmentHeight)).2.1,
        some e) := by
  simp [html2canvasSegmentedRun, hctx, hr]

lemma run_loop_done (env : SegEnv) (segmentHeight : ℤ) (removeContainer : Option Bool)
    (fuel : ℕ) (hctx : env.ctxAvailable = true)
    (hnone : (segLoop env segmentHeight fuel 0
      (env.scale * env.scrollWidth, env.scale * segmentHeight)).2.2 = none)
    (hdone : (segLoop env segmentHeight fuel 0
      (env.scale * env.scrollWidth, env.scale * segmentHeight)).2.1 = true) :
    html2canvasSegmentedRun env segmentHeight removeContainer fuel =
      ((segLoop env segmentHeight fuel 0
          (env.scale * env.scrollWidth, env.scale * segmentHeight)).1 ++
        [Ev.canvasRemove, Ev.containerDestroy], true, none) := by
  simp [html2canvasSegmentedRun, hctx, hnone, hdone]

lemma run_loop_fuel (env : SegEnv) (segmentHeight : ℤ) (removeContainer : Option Bool)
    (fuel : ℕ) (hctx : env.ctxAvailable = true)
    (hnone : (segLoop env segmentHeight fuel 0
      (env.scale * env.scrollWidth, env.scale * segmentHeight)).2.2 = none)
    (hdone : (segLoop env segmentHeight fuel 0
      (env.scale * env.scrollWidth, env.scale * segmentHeight)).2.1 = false) :
    html2canvasSegmentedRun env segmentHeight removeContainer fuel =
      ((segLoop env segmentHeight fuel 0
          (env.scale * env.scrollWidth, env.scale * segmentHeight)).1,
        false, none) := by
  simp [html2canvasSegmentedRun, hctx, hnone, hdone]

/-- C2 as stated is false on the code: when `render` rejects, the sweep
stops and `html2canvasSegmented` rejects, but there is no try/finally, so
`canvas.remove()` and `destroyContainer(container)` (src/src/index.ts lines
101-103) are skipped — the scratch canvas is not released and the isolation
container is not torn down. -/
theorem segmented_error_cleanup_counterexample :
    (html2canvasSegmentedRun envRenderFail 40 (some true) 5).2.2
      = some "render rejected" ∧
    Ev.canvasRemove ∉ (html2canvasSegmentedRun envRenderFail 40 (some true) 5).1 ∧
    Ev.containerDestroy ∉ (html2canvasSegmentedRun envRenderFail 40 (some true) 5).1 := by
  decide

/-- C2 amended: when a segment's paint step or the per-segment callback
fails, the sweep stops immediately at the failing step (the failing
`render` or the failing callback's invocation is the last event) and the
operation rejects — but the cleanup is skipped: neither the scratch canvas
removal nor the container teardown happens on the error path. -/
theorem segmented_error_skips_cleanup (env : SegEnv) (segmentHeight : ℤ)
    (removeContainer : Option Bool) (fuel : ℕ) (msg : String)
    (herr : (html2canvasSegmentedRun env segmentHeight removeContainer fuel).2.2
      = some msg) :
    (Ev.canvasRemove ∉ (html2canvasSegmentedRun env segmentHeight removeContainer fuel).1 ∧
      Ev.containerDestroy ∉
        (html2canvasSegmentedRun env segmentHeight removeContainer fuel).1) ∧
    ((msg = "ctx is null, maybe used too may resources" ∧
        env.ctxAvailable = false ∧
        (html2canvasSegmentedRun env segmentHeight removeContainer fuel).1 = []) ∨
      (msg = "render rejected" ∧ ∃ pre c h cw ch,
        (html2canvasSegmentedRun env segmentHeight removeContainer fuel).1
          = pre ++ [Ev.renderCall c h cw ch] ∧ env.renderFails c = true) ∨
      (msg = "op rejected" ∧ ∃ pre c,
        (html2canvasSegmentedRun env segmentHeight removeContainer fuel).1
          = pre ++ [Ev.opCall c] ∧
        env.opBehavior c = OpBehavior.thenableErr)) := by
  by_cases hctxf : env.ctxAvailable = false
  · rw [run_ctx_false env segmentHeight removeContainer fuel hctxf] at herr ⊢
    simp only [Option.some_inj] at herr
    exact ⟨⟨by simp, by simp⟩, Or.inl ⟨herr.symm, hctxf, rfl⟩⟩
  · have hctx : env.ctxAvailable = true := by
      revert hctxf
      cases env.ctxAvailable <;> simp
    rcases hr : (segLoop env segmentHeight fuel 0
        (env.scale * env.scrollWidth, env.scale * segmentHeight)).2.2 with _ | e
    · rcases hd : (segLoop env segmentHeight fuel 0
          (env.scale * env.scrollWidth, env.scale * segmentHeight)).2.1 with _ | _
      · rw [run_loop_fuel env segmentHeight removeContainer fuel hctx hr hd] at herr
        exact Option.noConfusion herr
      · rw [run_loop_done env segmentHeight removeContainer fuel hctx hr hd] at herr
        exact Option.noConfusion herr
    · rw [run_loop_err env segmentHeight removeContainer fuel e hctx hr] at herr ⊢
      simp only [Option.some_inj] at herr
      rw [← herr]
      refine ⟨⟨(segLoop_no_cleanup env segmentHeight fuel 0 _).1,
        (segLoop_no_cleanup env segmentHeight fuel 0 _).2⟩, ?_⟩
      exact segLoop_error_shape env segmentHeight fuel 0 _ e hr

/-- Witness for `segmented_error_skips_cleanup`: a run whose first segment's
paint rejects. -/
theorem segmented_error_skips_cleanup_witness :
    (html2canvasSegmentedRun envRenderFail 40 (some true) 5).2.2
      = some "render rejected" ∧
    (Ev.canvasRemove ∉ (html2canvasSegmentedRun envRenderFail 40 (some true) 5).1 ∧
      Ev.containerDestroy ∉
        (html2canvasSegmentedRun envRenderFail 40 (some true) 5).1) :=
  ⟨by decide,
    (segmented_error_skips_cleanup envRenderFail 40 (some true) 5 "render rejected"
      (by decide)).1⟩

/-- C6 as stated is false on the code for the segmented path: with
`removeContainer := false` a successful `html2canvasSegmented` run still
destroys the isolation container, because line 103 of src/src/index.ts
calls `destroyContainer(container)` unconditionally. -/
theorem segmented_removeContainer_ignored_counterexample :
    (html2canvasSegmentedRun envOk 100 (some false) 2).2.2 = none ∧
    Ev.containerDestroy ∈ (html2canvasSegmentedRun envOk 100 (some false) 2).1 := by
  decide

/-- C6 amended: `html2canvas` (via `renderElement`) destroys the isolation
container after the final paint exactly when `removeContainer ?? true`
holds, while `html2canvasSegmented` destroys the container after the final
segment of every successful run regardless of `removeContainer`. -/
theorem container_teardown_policy (env : SegEnv) (segmentHeight : ℤ)
    (removeContainer : Option Bool) (fuel : ℕ) :
    (env.renderFails 0 = false →
      (Ev.containerDestroy ∈ (renderElementRun env removeContainer).1 ↔
        removeContainer.getD true = true)) ∧
    ((html2canvasSegmentedRun env segmentHeight removeContainer fuel).2.2 = none →
      (html2canvasSegmentedRun env segmentHeight removeContainer fuel).2.1 = true →
      Ev.containerDestroy ∈
        (html2canvasSegmentedRun env segmentHeight removeContainer fuel).1) := by
  constructor
  · intro h
    cases hrc : removeContainer.getD true with
    | true => simp [renderElementRun, h, hrc]
    | false => simp [renderElementRun, h, hrc]
  · intro hnone hdone
    cases hctx : env.ctxAvailable with
    | false =>
      rw [run_ctx_false env segmentHeight removeContainer fuel hctx] at hnone
      exact Option.noConfusion hnone
    | true =>
      rcases hr : (segLoop env segmentHeight fuel 0
          (env.scale * env.scrollWidth, env.scale * segmentHeight)).2.2 with _ | e
      · rcases hd : (segLoop env segmentHeight fuel 0
            (env.scale * env.scrollWidth, env.scale * segmentHeight)).2.1 with _ | _
        · rw [run_loop_fuel env segmentHeight removeContainer fuel hctx hr hd] at hdone
          exact Bool.noConfusion hdone
        · rw [run_loop_done env segmentHeight removeContainer fuel hctx hr hd]
          simp
      · rw [run_loop_err env segmentHeight removeContainer fuel e hctx hr] at hnone
        exact Option.noConfusion hnone

/-- Witness for `container_teardown_policy`: a single-shot run with
`removeContainer = false` keeps the container, while a successful segmented
run with the same option still destroys it. -/
theorem container_teardown_policy_witness :
    (envOk.renderFails 0 = false ∧
      (Ev.containerDestroy ∈ (renderElementRun envOk (some false)).1 ↔
        (some false : Option Bool).getD true = true)) ∧
    ((html2canvasSegmentedRun envOk 100 (some false) 2).2.2 = none ∧
      (html2canvasSegmentedRun envOk 100 (some false) 2).2.1 = true ∧
      Ev.containerDestroy ∈ (html2canvasSegmentedRun envOk 100 (some false) 2).1) :=
  ⟨⟨rfl, (container_teardown_policy envOk 100 (some false) 2).1 rfl⟩,
    ⟨by decide, by decide,
      (container_teardown_policy envOk 100 (some false) 2).2 (by decide) (by decide)⟩⟩

/-- C7: in a failure-free terminating segmented run the emitted trace is the
concatenation, in segment order, of per-segment blocks; each block performs
paint, then the callback, then — when the callback returned a thenable —
the await of that thenable, and only afterwards the buffer clear and
release.  Hence no paint work of segment N+1 begins before segment N's
callback has completed, and the buffer is not cleared nor `curTop` advanced
before an awaitable callback resolves. -/
theorem segmented_sequencing (env : SegEnv) (segmentHeight : ℤ)
    (removeContainer : Option Bool) (fuel : ℕ)
    (hctx : env.ctxAvailable = true)
    (hrf : ∀ t, env.renderFails t = false)
    (hob : ∀ t, env.opBehavior t ≠ OpBehavior.thenableErr)
    (hdone : (sweepRun env.scrollHeight segmentHeight fuel 0).2.2 = true) :
    html2canvasSegmentedRun env segmentHeight removeContainer fuel =
      (((sweepRun env.scrollHeight segmentHeight fuel 0).1.map
          (segBlock env)).flatten ++
        [Ev.canvasRemove, Ev.containerDestroy], true, none) ∧
    (∀ c h : ℤ, env.opBehavior c = OpBehavior.thenableOk →
      segBlock env (c, h) =
        [Ev.renderCall c h (env.scale * env.scrollWidth) (env.scale * h),
          Ev.opCall c, Ev.opAwaited c,
          Ev.clearRect c (env.scale * env.scrollWidth) (env.scale * h),
          Ev.releaseCanvas c]) := by
  have hloop := segLoop_success_trace env segmentHeight hctx hrf hob fuel 0
    (env.scale * env.scrollWidth, env.scale * segmentHeight)
  constructor
  · have hdone2 : (segLoop env segmentHeight fuel 0
        (env.scale * env.scrollWidth, env.scale * segmentHeight)).2.1 = true :=
      hloop.2.1.trans hdone
    rw [run_loop_done env segmentHeight removeContainer fuel hctx hloop.2.2 hdone2,
      hloop.1]
  · intro c h hok
    simp [segBlock, hok]

/-- Witness for `segmented_sequencing`: a three-segment run whose callback
always returns a resolving thenable. -/
theorem segmented_sequencing_witness :
    (envAwait.ctxAvailable = true ∧ (∀ t, envAwait.renderFails t = false) ∧
      (∀ t, envAwait.opBehavior t ≠ OpBehavior.thenableErr) ∧
      (sweepRun envAwait.scrollHeight 40 3 0).2.2 = true) ∧
    html2canvasSegmentedRun envAwait 40 (some true) 3 =
      (((sweepRun envAwait.scrollHeight 40 3 0).1.map (segBlock envAwait)).flatten ++
        [Ev.canvasRemove, Ev.containerDestroy], true, none) :=
  ⟨⟨rfl, fun _ => rfl, fun _ h => OpBehavior.noConfusion h, by decide⟩,
    (segmented_sequencing envAwait 40 (some true) 3 rfl (fun _ => rfl)
      (fun _ h => OpBehavior.noConfusion h) (by decide)).1⟩

/-- C9: the two pre-loop canvas sizing assignments (src/src/index.ts lines
71-72) are redundant: the loop body reassigns the canvas dimensions before
any read, so removing the pre-loop assignments leaves the whole observable
behavior — every event, including the canvas dimensions seen by each paint
and clear, the termination flag, and the error — unchanged. -/
theorem preassign_redundant (env : SegEnv) (segmentHeight : ℤ)
    (removeContainer : Option Bool) (fuel : ℕ) :
    html2canvasSegmentedRun env segmentHeight removeContainer fuel =
      html2canvasSegmentedRunNoPreAssign env segmentHeight removeContainer fuel := by
  simp only [html2canvasSegmentedRun, html2canvasSegmentedRunNoPreAssign]
  rw [segLoop_dims_irrel env segmentHeight fuel 0
    (env.scale * env.scrollWidth, env.scale * segmentHeight) (300, 150)]

/-- C8: `html2canvasSegmentedGetBlobList` resolves, when every segment's
raster encodes successfully, to exactly one blob per emitted segment, in
top-to-bottom segment order, each carrying the requested MIME type, with
`ceil(scrollHeight / segmentHeight)` blobs in total; it rejects with
`'to blob failed!'` as soon as any encoding yields a null blob. -/
theorem getBlobList_spec (totalHeight segmentHeight : ℤ) (toBlobSucceeds : ℤ → Bool)
    (mineType : String) (fuel : ℕ)
    (hth : 0 < totalHeight) (hsh : 0 < segmentHeight)
    (hdone : (sweepRun totalHeight segmentHeight fuel 0).2.2 = true) :
    ((∀ s ∈ (sweepRun totalHeight segmentHeight fuel 0).1, toBlobSucceeds s.1 = true) →
      html2canvasSegmentedGetBlobList totalHeight segmentHeight toBlobSucceeds
          mineType fuel
        = Except.ok ((sweepRun totalHeight segmentHeight fuel 0).1.map
            fun s => ⟨s, mineType⟩) ∧
      (((sweepRun totalHeight segmentHeight fuel 0).1.map
          fun s => (⟨s, mineType⟩ : BlobModel)).length : ℤ)
        = (totalHeight + segmentHeight - 1) / segmentHeight) ∧
    ((∃ s ∈ (sweepRun totalHeight segmentHeight fuel 0).1, toBlobSucceeds s.1 = false) →
      html2canvasSegmentedGetBlobList totalHeight segmentHeight toBlobSucceeds
          mineType fuel
        = Except.error "to blob failed!") := by
  constructor
  · intro hall
    refine ⟨toBlobList_ok toBlobSucceeds mineType _ hall, ?_⟩
    rw [List.length_map]
    have := sweepRun_length_eq totalHeight segmentHeight hsh fuel 0 (by omega) hdone
    simpa using this
  · intro hex
    exact toBlobList_error toBlobSucceeds mineType _ hex

/-- Witness for `getBlobList_spec`: the 250/100 scenario with an encoder
that always succeeds, yielding three blobs. -/
theorem getBlobList_spec_witness :
    ((0 : ℤ) < 250 ∧ (0 : ℤ) < 100 ∧ (sweepRun 250 100 3 0).2.2 = true ∧
      (∀ s ∈ (sweepRun 250 100 3 0).1, (fun _ : ℤ => true) s.1 = true)) ∧
    html2canvasSegmentedGetBlobList 250 100 (fun _ => true) "image/jpeg" 3 =
      Except.ok [⟨(0, 100), "image/jpeg"⟩, ⟨(100, 100), "image/jpeg"⟩,
        ⟨(200, 50), "image/jpeg"⟩] := by
  refine ⟨⟨by decide, by decide, by decide, fun s _ => rfl⟩, ?_⟩
  have h := (getBlobList_spec 250 100 (fun _ => true) "image/jpeg" 3 (by decide)
    (by decide) (by decide)).1 (fun s _ => rfl)
  have e : (sweepRun 250 100 3 0).1 = [(0, 100), (100, 100), (200, 50)] := by decide
  rw [h.1, e]
  rfl

end Html2Canvas
